import Mathlib

/-!
Shallow embedding of the polymarket-kalshi-btc-arbitrage-bot core
(backend/core, backend/safety, backend/execution, backend/clients)
and proofs about its specified behaviour.

Python floats are modelled as rationals (ℚ); Python dicts keyed by strings
as association lists; fallible or stateful code as explicit state passing.
-/

namespace ArbBot

/-! ## Settings (backend/config/settings.py)

Only the fields the verified components read. Defaults mirror settings.py. -/

structure Settings where
  KALSHI_FEE_PER_CONTRACT : ℚ
  POLYMARKET_GAS_COST : ℚ
  SLIPPAGE_BUFFER : ℚ
  MIN_NET_MARGIN : ℚ
  deriving Repr, DecidableEq

def defaultSettings : Settings :=
  { KALSHI_FEE_PER_CONTRACT := 3/100
    POLYMARKET_GAS_COST := 2/1000
    SLIPPAGE_BUFFER := 5/1000
    MIN_NET_MARGIN := 2/100 }

/-! ## Fee engine (backend/core/fee_engine.py) -/

namespace FeeEngine

/-- `FeeEngine.kalshi_fee`: no fee on losing trades, configured fee on winning ones. -/
def kalshi_fee (s : Settings) (is_winning : Bool) : ℚ :=
  if is_winning = false then 0 else s.KALSHI_FEE_PER_CONTRACT

/-- `FeeEngine.polymarket_fee`: gas cost estimate per trade. -/
def polymarket_fee (s : Settings) : ℚ :=
  s.POLYMARKET_GAS_COST

/-- `FeeEngine.worst_case_fees`: worst case of the two venues plus slippage buffer. -/
def worst_case_fees (s : Settings) : ℚ :=
  max (kalshi_fee s true) (polymarket_fee s) + s.SLIPPAGE_BUFFER

/-- `FeeEngine.fee_adjusted_cost`. -/
def fee_adjusted_cost (s : Settings) (raw_total_cost : ℚ) : ℚ :=
  raw_total_cost + worst_case_fees s

/-- `FeeEngine.net_margin`. -/
def net_margin (s : Settings) (raw_total_cost : ℚ) : ℚ :=
  1 - fee_adjusted_cost s raw_total_cost

/-- `FeeEngine.is_profitable`. -/
def is_profitable (s : Settings) (raw_total_cost : ℚ) : Bool :=
  decide (s.MIN_NET_MARGIN ≤ net_margin s raw_total_cost)

end FeeEngine

/-! ## Kill switch token validation (backend/safety/kill_switch.py) -/

namespace KillSwitch

/-- `KillSwitch.validate_token`. The configured token is
`getattr(settings, "KILL_SWITCH_TOKEN", "")`, i.e. `""` when missing.
Python string truthiness: a string is falsy exactly when it is empty.
`hmac.compare_digest` on equal-visibility strings decides string equality
(in constant time; timing is not modelled). -/
def validate_token (provided_token : String) (expected : String) : Bool :=
  if expected = "" then false
  else if provided_token = "" then false
  else provided_token = expected

end KillSwitch

/-! ## Kill switch state (backend/safety/kill_switch.py)

The in-process flag, the recorded reason/timestamp, and the sentinel file are
modelled together; file-system writes are assumed to succeed (the code's
best-effort try/except around them is the only difference). Timestamps are
rationals standing for `datetime.utcnow()`. -/

structure KSState where
  active : Bool
  activated_at : Option ℚ
  reason : String
  file_exists : Bool
  deriving Repr, DecidableEq

namespace KillSwitch

/-- `KillSwitch.activate`: set active, record the current UTC time and the
reason, and (best-effort) write the sentinel file. -/
def activate (now : ℚ) (reason : String) (ks : KSState) : KSState :=
  { ks with
    active := true
    activated_at := some now
    reason := reason
    file_exists := true }

/-- `KillSwitch.deactivate`: clear the flag, timestamp and reason, and
remove the sentinel file. -/
def deactivate (ks : KSState) : KSState :=
  { ks with
    active := false
    activated_at := none
    reason := ""
    file_exists := false }

/-- `KillSwitch.is_active` (property): the sentinel file forces active,
updating the in-memory state if it was not already set. -/
def is_active_check (now : ℚ) (ks : KSState) : Bool × KSState :=
  if ks.file_exists then
    if ks.active = false then
      (true, { ks with active := true, reason := "kill switch file detected",
                       activated_at := some now })
    else (true, ks)
  else (ks.active, ks)

end KillSwitch

/-! ## Order engine unwind (backend/execution/order_engine.py) -/

inductive ExecutionStatus where
  | success
  | dry_run
  | preflight_failed
  | leg1_failed
  | leg2_failed
  | unwound
  | error
  deriving Repr, DecidableEq

namespace OrderEngine

/-- The leg-1 result as consumed by `_attempt_unwind_kalshi`:
`none` models a falsy `leg1_result` (Python `None` or the empty dict);
`some oid?` models a truthy dict, with `oid?` the order id extracted from
its "order" entry (absent when the dict holds no order id). -/
abbrev Leg1Result := Option (Option String)

/-- `OrderEngine._attempt_unwind_kalshi`: nothing to unwind when the leg-1
result is falsy; fail when it carries no order id; otherwise the outcome of
`kalshi.cancel_order` (`cancel_ok oid = true` iff the cancel returned no
error) decides. -/
def attempt_unwind_kalshi (cancel_ok : String → Bool) (leg1_result : Leg1Result) : Bool :=
  match leg1_result with
  | none => true
  | some none => false
  | some (some order_id) => cancel_ok order_id

/-- The leg-2 failure branch of `OrderEngine.execute_arbitrage` (lines
150–160): when leg 2 reports an error, attempt the unwind and map its
outcome to the returned status. -/
def leg2_failure_status (cancel_ok : String → Bool) (leg1_result : Leg1Result) :
    ExecutionStatus :=
  if attempt_unwind_kalshi cancel_ok leg1_result then ExecutionStatus.unwound
  else ExecutionStatus.leg2_failed

end OrderEngine

/-! ## Data model (backend/core/models.py) -/

inductive PolyLeg where
  | Up
  | Down
  deriving Repr, DecidableEq

inductive KalshiLeg where
  | Yes
  | No
  deriving Repr, DecidableEq

/-- `KalshiMarket`: one Kalshi contract; asks are integer cents. -/
structure KalshiMarket where
  strike : ℚ
  yes_ask : ℤ
  no_ask : ℤ
  deriving Repr, DecidableEq

/-- `PolymarketData`: the hourly snapshot; `prices` is the side-to-ask dict. -/
structure PolymarketData where
  price_to_beat : Option ℚ
  prices : List (String × ℚ)
  deriving Repr, DecidableEq

structure KalshiData where
  markets : List KalshiMarket
  deriving Repr, DecidableEq

/-- `dict.get(key, 0.0)` on the prices dict. -/
def getPrice (prices : List (String × ℚ)) (key : String) : ℚ :=
  (prices.lookup key).getD 0

/-- `ArbitrageCheck`: one strategy pair with its fee-adjusted economics. -/
structure ArbitrageCheck where
  kalshi_strike : ℚ
  kalshi_yes : ℚ
  kalshi_no : ℚ
  type : String
  poly_leg : PolyLeg
  kalshi_leg : KalshiLeg
  poly_cost : ℚ
  kalshi_cost : ℚ
  total_cost : ℚ
  fee_adjusted_cost : ℚ
  is_arbitrage : Bool
  margin : ℚ
  net_margin : ℚ
  deriving Repr, DecidableEq

/-! ## Arbitrage detector (backend/core/arbitrage.py) -/

namespace ArbitrageEngine

/-- `ArbitrageEngine._build_check`. -/
def build_check (s : Settings) (kalshi_strike kalshi_yes_cost kalshi_no_cost : ℚ)
    (type_str : String) (poly_leg : PolyLeg) (kalshi_leg : KalshiLeg)
    (poly_cost kalshi_cost : ℚ) : ArbitrageCheck :=
  let raw_total := poly_cost + kalshi_cost
  { kalshi_strike := kalshi_strike
    kalshi_yes := kalshi_yes_cost
    kalshi_no := kalshi_no_cost
    type := type_str
    poly_leg := poly_leg
    kalshi_leg := kalshi_leg
    poly_cost := poly_cost
    kalshi_cost := kalshi_cost
    total_cost := raw_total
    fee_adjusted_cost := FeeEngine.fee_adjusted_cost s raw_total
    is_arbitrage := FeeEngine.is_profitable s raw_total
    margin := 1 - raw_total
    net_margin := FeeEngine.net_margin s raw_total }

/-- The per-market body of the scan loop in `find_opportunities`
(lines 56–90): one check per strike comparison, two on the equal case. -/
def checksFor (s : Settings) (poly_strike poly_up_cost poly_down_cost : ℚ)
    (km : KalshiMarket) : List ArbitrageCheck :=
  let kalshi_yes_cost : ℚ := (km.yes_ask : ℚ) / 100
  let kalshi_no_cost : ℚ := (km.no_ask : ℚ) / 100
  if poly_strike > km.strike then
    [build_check s km.strike kalshi_yes_cost kalshi_no_cost "Poly > Kalshi"
      PolyLeg.Down KalshiLeg.Yes poly_down_cost kalshi_yes_cost]
  else if poly_strike < km.strike then
    [build_check s km.strike kalshi_yes_cost kalshi_no_cost "Poly < Kalshi"
      PolyLeg.Up KalshiLeg.No poly_up_cost kalshi_no_cost]
  else
    [build_check s km.strike kalshi_yes_cost kalshi_no_cost "Equal"
      PolyLeg.Down KalshiLeg.Yes poly_down_cost kalshi_yes_cost,
     build_check s km.strike kalshi_yes_cost kalshi_no_cost "Equal"
      PolyLeg.Up KalshiLeg.No poly_up_cost kalshi_no_cost]

/-- Stable insertion of a market into a list sorted by ascending strike. -/
def insertByStrike (m : KalshiMarket) : List KalshiMarket → List KalshiMarket
  | [] => [m]
  | x :: xs =>
    if x.strike ≤ m.strike then x :: insertByStrike m xs else m :: x :: xs

/-- `sorted(markets, key=strike)`: a stable sort by ascending strike. -/
def sortByStrike : List KalshiMarket → List KalshiMarket
  | [] => []
  | x :: xs => insertByStrike x (sortByStrike xs)

/-- The argmin loop of `_select_nearby_markets`: the accumulator holds the
best index and `min_diff` (`none` standing for the initial infinity), so the
first index attaining the minimum wins ties. -/
def closestIdx (sorted_markets : List KalshiMarket) (poly_strike : ℚ) : ℕ :=
  (sorted_markets.enum.foldl
    (fun acc im =>
      let d := |im.2.strike - poly_strike|
      match acc.2 with
      | none => (im.1, some d)
      | some md => if d < md then (im.1, some d) else acc)
    ((0 : ℕ), (none : Option ℚ))).1

/-- `ArbitrageEngine._select_nearby_markets`: the Python slice
`sorted_markets[max(0, i-radius) : min(len, i+radius+1)]`
(truncated ℕ subtraction coincides with `max(0, i-radius)`). -/
def select_nearby_markets (sorted_markets : List KalshiMarket) (poly_strike : ℚ)
    (radius : ℕ) : List KalshiMarket :=
  if sorted_markets = [] then []
  else
    let closest_idx := closestIdx sorted_markets poly_strike
    let start := closest_idx - radius
    let stop := min sorted_markets.length (closest_idx + radius + 1)
    (sorted_markets.drop start).take (stop - start)

/-- `ArbitrageEngine.find_opportunities`: select the strike neighborhood,
emit the strategy checks per market in order, and filter the profitable
ones. -/
def find_opportunities (s : Settings) (poly_data : PolymarketData)
    (kalshi_data : KalshiData) : List ArbitrageCheck × List ArbitrageCheck :=
  match poly_data.price_to_beat with
  | none => ([], [])
  | some poly_strike =>
    let poly_up_cost := getPrice poly_data.prices "Up"
    let poly_down_cost := getPrice poly_data.prices "Down"
    let kalshi_markets := sortByStrike kalshi_data.markets
    let selected := select_nearby_markets kalshi_markets poly_strike 4
    let all_checks :=
      selected.flatMap (checksFor s poly_strike poly_up_cost poly_down_cost)
    (all_checks, all_checks.filter (fun c => c.is_arbitrage))

end ArbitrageEngine

/-! ## Circuit breaker (backend/safety/circuit_breaker.py)

`time.time()` is passed explicitly as `now : ℚ`; consecutive calls that the
code makes within one operation (the appended sample, the window cleaning and
the error-rate read) share that timestamp, as wall-clock drift inside one
call is not modelled. -/

inductive CircuitState where
  | closed
  | opened
  | halfOpen
  deriving Repr, DecidableEq

structure CBConfig where
  max_consecutive_failures : ℕ
  error_rate_threshold : ℚ
  error_rate_window_sec : ℚ
  cooldown_sec : ℚ
  deriving Repr, DecidableEq

/-- Constructor defaults of `CircuitBreaker.__init__`. -/
def defaultCBConfig : CBConfig :=
  { max_consecutive_failures := 3
    error_rate_threshold := 1/2
    error_rate_window_sec := 300
    cooldown_sec := 300 }

/-- The breaker's mutable state: `_state`, `_consecutive_failures`,
`_last_state_change` and the `_api_calls` deque of `(timestamp, success)`. -/
structure CB where
  state : CircuitState
  consecutive_failures : ℕ
  last_state_change : ℚ
  api_calls : List (ℚ × Bool)
  deriving Repr, DecidableEq

namespace CircuitBreaker

/-- A freshly constructed breaker at time `t0`. -/
def init (t0 : ℚ) : CB :=
  { state := CircuitState.closed
    consecutive_failures := 0
    last_state_change := t0
    api_calls := [] }

/-- `CircuitBreaker._clean_old_calls`: pop samples older than the window. -/
def clean_old_calls (cfg : CBConfig) (now : ℚ) (calls : List (ℚ × Bool)) :
    List (ℚ × Bool) :=
  calls.dropWhile (fun c => decide (c.1 < now - cfg.error_rate_window_sec))

/-- `CircuitBreaker._transition_to` (logging aside). -/
def transition_to (cb : CB) (new_state : CircuitState) (now : ℚ) : CB :=
  { cb with state := new_state, last_state_change := now }

/-- `CircuitBreaker.trip`: open the circuit and reset the consecutive count. -/
def trip (cb : CB) (now : ℚ) : CB :=
  { transition_to cb CircuitState.opened now with consecutive_failures := 0 }

/-- `CircuitBreaker._get_error_rate` on an already-cleaned window. -/
def error_rate (calls : List (ℚ × Bool)) : ℚ :=
  if calls = [] then 0
  else ((calls.filter (fun c => c.2 = false)).length : ℚ) / (calls.length : ℚ)

/-- `CircuitBreaker.record_failure`. -/
def record_failure (cfg : CBConfig) (now : ℚ) (cb : CB) : CB :=
  let calls := clean_old_calls cfg now (cb.api_calls ++ [(now, false)])
  let cb1 : CB := { cb with
    api_calls := calls
    consecutive_failures := cb.consecutive_failures + 1 }
  if cb1.state = CircuitState.halfOpen then trip cb1 now
  else if cfg.max_consecutive_failures ≤ cb1.consecutive_failures then trip cb1 now
  else if cfg.error_rate_threshold < error_rate calls ∧ 5 ≤ calls.length then
    trip cb1 now
  else cb1

/-- `CircuitBreaker.record_success`. -/
def record_success (cfg : CBConfig) (now : ℚ) (cb : CB) : CB :=
  let calls := clean_old_calls cfg now (cb.api_calls ++ [(now, true)])
  let cb1 : CB := { cb with api_calls := calls }
  if cb1.state = CircuitState.halfOpen then
    { transition_to cb1 CircuitState.closed now with consecutive_failures := 0 }
  else { cb1 with consecutive_failures := 0 }

/-- The `state` property: reading it while `opened` past the cooldown
transitions to `halfOpen` on demand; returns the read value and the
(possibly updated) breaker. -/
def readState (cfg : CBConfig) (now : ℚ) (cb : CB) : CircuitState × CB :=
  if cb.state = CircuitState.opened ∧ cfg.cooldown_sec ≤ now - cb.last_state_change then
    let cb1 := transition_to cb CircuitState.halfOpen now
    (cb1.state, cb1)
  else (cb.state, cb)

/-- A sequence of `record_failure` calls at the given timestamps. -/
def runFailures (cfg : CBConfig) (ts : List ℚ) (cb : CB) : CB :=
  ts.foldl (fun c t => record_failure cfg t c) cb

end CircuitBreaker

/-! ## Risk manager (backend/safety/risk_manager.py)

The reason strings the code formats with f-strings are modelled as tagged
values naming the failing gate; their numeric payloads are the values the
code interpolates. -/

structure RiskSettings where
  MIN_NET_MARGIN : ℚ
  MAX_SINGLE_TRADE_USD : ℚ
  MAX_TOTAL_EXPOSURE_USD : ℚ
  MAX_DAILY_LOSS_USD : ℚ
  MAX_TRADES_PER_HOUR : ℕ
  deriving Repr, DecidableEq

/-- The `RiskManager` fields `check_trade_allowed` reads. -/
structure RiskState where
  is_halted : Bool
  halt_reason : String
  daily_pnl : ℚ
  trade_timestamps : List ℚ
  deriving Repr, DecidableEq

/-- The human-readable reason, one tag per gate. -/
inductive RiskReason where
  | halted (halt_reason : String)
  | margin_below_min (net_margin min_margin : ℚ)
  | trade_too_large (cost max_trade : ℚ)
  | exposure_exceeded (current cost max_exposure : ℚ)
  | daily_loss_exceeded (daily_pnl max_loss : ℚ)
  | rate_limited (count : ℕ) (max_per_hour : ℕ)
  | approved
  deriving Repr, DecidableEq

namespace RiskManager

/-- `RiskManager._clean_old_timestamps`: drop timestamps older than 3600 s. -/
def clean_old_timestamps (now : ℚ) (ts : List ℚ) : List ℚ :=
  ts.dropWhile (fun t => decide (t < now - 3600))

/-- `RiskManager.check_trade_allowed`: the six ordered gates. -/
def check_trade_allowed (s : RiskSettings) (st : RiskState) (now : ℚ)
    (net_margin trade_cost_usd current_exposure : ℚ) : Bool × RiskReason :=
  if st.is_halted then (false, RiskReason.halted st.halt_reason)
  else if net_margin < s.MIN_NET_MARGIN then
    (false, RiskReason.margin_below_min net_margin s.MIN_NET_MARGIN)
  else if trade_cost_usd > s.MAX_SINGLE_TRADE_USD then
    (false, RiskReason.trade_too_large trade_cost_usd s.MAX_SINGLE_TRADE_USD)
  else if current_exposure + trade_cost_usd > s.MAX_TOTAL_EXPOSURE_USD then
    (false, RiskReason.exposure_exceeded current_exposure trade_cost_usd
      s.MAX_TOTAL_EXPOSURE_USD)
  else if st.daily_pnl ≤ -s.MAX_DAILY_LOSS_USD then
    (false, RiskReason.daily_loss_exceeded st.daily_pnl s.MAX_DAILY_LOSS_USD)
  else if (clean_old_timestamps now st.trade_timestamps).length
      ≥ s.MAX_TRADES_PER_HOUR then
    (false, RiskReason.rate_limited
      (clean_old_timestamps now st.trade_timestamps).length s.MAX_TRADES_PER_HOUR)
  else (true, RiskReason.approved)

end RiskManager

/-! ## Polymarket order book (backend/clients/polymarket_client.py) -/

/-- The order side; `fillable_amount` walks the asks for BUY and the bids
for SELL (its price-limit breaks test the side string for exactly these two
values). -/
inductive Side where
  | BUY
  | SELL
  deriving Repr, DecidableEq

/-- `OrderBookLevel`. -/
structure OrderBookLevel where
  price : ℚ
  size : ℚ
  deriving Repr, DecidableEq

/-- `OrderBook`: `bids` sorted highest-first, `asks` lowest-first by the
constructor. -/
structure OrderBook where
  bids : List OrderBookLevel
  asks : List OrderBookLevel
  deriving Repr, DecidableEq

namespace PolymarketClient

/-- Stable insertion for ascending price (the asks sort). -/
def insertAsc (x : OrderBookLevel) : List OrderBookLevel → List OrderBookLevel
  | [] => [x]
  | y :: ys => if y.price ≤ x.price then y :: insertAsc x ys else x :: y :: ys

/-- Stable insertion for descending price (the bids sort). -/
def insertDesc (x : OrderBookLevel) : List OrderBookLevel → List OrderBookLevel
  | [] => [x]
  | y :: ys => if x.price ≤ y.price then y :: insertDesc x ys else x :: y :: ys

def sortAsc : List OrderBookLevel → List OrderBookLevel
  | [] => []
  | x :: xs => insertAsc x (sortAsc xs)

def sortDesc : List OrderBookLevel → List OrderBookLevel
  | [] => []
  | x :: xs => insertDesc x (sortDesc xs)

/-- `OrderBook.__init__`: sorts bids highest-first and asks lowest-first. -/
def mkOrderBook (bids asks : List OrderBookLevel) : OrderBook :=
  { bids := sortDesc bids, asks := sortAsc asks }

/-- The level loop of `OrderBook.fillable_amount`, with the running
accumulators `total_contracts` and `total_cost`; each iteration either
breaks (price limit crossed, or budget exhausted) or fills
`min(level.size, remaining_budget / level.price)` contracts. -/
def fillableGo (side : Side) (max_price max_usd : ℚ) :
    List OrderBookLevel → ℚ → ℚ → ℚ × ℚ
  | [], total_contracts, total_cost => (total_contracts, total_cost)
  | level :: levels, total_contracts, total_cost =>
    if side = Side.BUY ∧ max_price < level.price then (total_contracts, total_cost)
    else if side = Side.SELL ∧ level.price < max_price then
      (total_contracts, total_cost)
    else if max_usd - total_cost ≤ 0 then (total_contracts, total_cost)
    else
      let affordable_contracts := (max_usd - total_cost) / level.price
      let fill := min level.size affordable_contracts
      fillableGo side max_price max_usd levels (total_contracts + fill)
        (total_cost + fill * level.price)

/-- The side selection `levels = asks if side == "BUY" else bids`. -/
def walkedLevels (book : OrderBook) (side : Side) : List OrderBookLevel :=
  match side with
  | Side.BUY => book.asks
  | Side.SELL => book.bids

/-- `OrderBook.fillable_amount`. -/
def fillable_amount (book : OrderBook) (side : Side) (max_price max_usd : ℚ) :
    ℚ × ℚ :=
  fillableGo side max_price max_usd (walkedLevels book side) 0 0

end PolymarketClient

/-- C4: Fee-engine arithmetic: `worst_case_fees` is the max of the Kalshi fee and
the Polymarket gas cost plus the slippage buffer; `fee_adjusted_cost` adds it to the
raw total; `net_margin` is one minus the adjusted cost; `is_profitable` holds iff
the net margin reaches `MIN_NET_MARGIN`; and with the default settings a raw total
whose fee-adjusted cost is exactly 1.00 is not profitable. -/
theorem fee_engine_arithmetic (s : Settings) (r : ℚ) :
    FeeEngine.worst_case_fees s
      = max s.KALSHI_FEE_PER_CONTRACT s.POLYMARKET_GAS_COST + s.SLIPPAGE_BUFFER ∧
    FeeEngine.fee_adjusted_cost s r = r + FeeEngine.worst_case_fees s ∧
    FeeEngine.net_margin s r = 1 - FeeEngine.fee_adjusted_cost s r ∧
    (FeeEngine.is_profitable s r = true ↔ s.MIN_NET_MARGIN ≤ FeeEngine.net_margin s r) ∧
    FeeEngine.fee_adjusted_cost defaultSettings (193/200) = 1 ∧
    FeeEngine.is_profitable defaultSettings (193/200) = false := by
  refine ⟨rfl, rfl, rfl, ?_, ?_, ?_⟩
  · simp [FeeEngine.is_profitable]
  · norm_num [FeeEngine.fee_adjusted_cost, FeeEngine.worst_case_fees,
      FeeEngine.kalshi_fee, FeeEngine.polymarket_fee, defaultSettings]
  · simp only [FeeEngine.is_profitable, decide_eq_false_iff_not, not_le]
    norm_num [FeeEngine.net_margin, FeeEngine.fee_adjusted_cost,
      FeeEngine.worst_case_fees, FeeEngine.kalshi_fee, FeeEngine.polymarket_fee,
      defaultSettings]

/-- C2: Kill-switch token validation is fail-closed: with no configured token
(empty / missing `KILL_SWITCH_TOKEN`), `validate_token` returns false for every
input, hence its result is independent of the input. -/
theorem kill_switch_fail_closed (t : String) :
    KillSwitch.validate_token t "" = false ∧
    (∀ u : String, KillSwitch.validate_token t "" = KillSwitch.validate_token u "") := by
  constructor
  · rfl
  · intro u; rfl

/-- C1 counterexample: with a leg-1 result that is present but carries no
order id, and a cancel operation that always succeeds, the leg-2 failure
branch returns `leg2_failed`, not `unwound` as the claim states. -/
theorem unwind_no_order_id_cex :
    OrderEngine.leg2_failure_status (fun _ => true) (some none)
      ≠ ExecutionStatus.unwound := by
  decide

/-- C1 (amended): when leg 2 fails after leg 1 succeeded, the engine cancels
the leg-1 order when its id is present and the cancel outcome decides
`unwound` vs `leg2_failed`; a falsy leg-1 result means nothing to unwind
(`unwound`); but a leg-1 result that carries no order id makes the unwind
fail, so the status is `leg2_failed`. -/
theorem unwind_policy (cancel_ok : String → Bool) (leg1 : OrderEngine.Leg1Result) :
    (leg1 = none → OrderEngine.leg2_failure_status cancel_ok leg1 = ExecutionStatus.unwound) ∧
    (∀ oid : String, leg1 = some (some oid) →
      (OrderEngine.leg2_failure_status cancel_ok leg1 = ExecutionStatus.unwound
        ↔ cancel_ok oid = true)) ∧
    (leg1 = some none →
      OrderEngine.leg2_failure_status cancel_ok leg1 = ExecutionStatus.leg2_failed) := by
  refine ⟨?_, ?_, ?_⟩
  · rintro rfl; rfl
  · rintro oid rfl
    simp only [OrderEngine.leg2_failure_status, OrderEngine.attempt_unwind_kalshi]
    split_ifs with h <;> simp [h]
  · rintro rfl; rfl

/-- C1 witness: concrete instances of the three branches of `unwind_policy`. -/
theorem unwind_policy_witness :
    OrderEngine.leg2_failure_status (fun _ => false) none = ExecutionStatus.unwound ∧
    (OrderEngine.leg2_failure_status (fun _ => true) (some (some "ord-123"))
        = ExecutionStatus.unwound ↔ true = true) ∧
    OrderEngine.leg2_failure_status (fun _ => true) (some none)
        = ExecutionStatus.leg2_failed :=
  ⟨(unwind_policy (fun _ => false) none).1 rfl,
   ((unwind_policy (fun _ => true) (some (some "ord-123"))).2.1 "ord-123" rfl),
   (unwind_policy (fun _ => true) (some none)).2.2 rfl⟩

/-- C8 counterexample: activating at time 0 and again at time 1 leaves
`activated_at` equal to the second activation's timestamp, not the first's. -/
theorem activate_twice_timestamp_cex :
    (KillSwitch.activate 1 "b"
        (KillSwitch.activate 0 "a"
          { active := false, activated_at := none, reason := "", file_exists := false })
      ).activated_at ≠ some 0 := by
  decide

/-- C8 (amended): activate followed by deactivate leaves the switch inactive
(both the raw flag and the file-aware `is_active` check) and the sentinel
file deleted; activating twice leaves the switch active, with `activated_at`
equal to the timestamp of the second (most recent) activation, since each
activation overwrites the timestamp. -/
theorem kill_switch_round_trip (ks : KSState) (t1 t2 t3 : ℚ) (r1 r2 : String) :
    (KillSwitch.deactivate (KillSwitch.activate t1 r1 ks)).active = false ∧
    (KillSwitch.deactivate (KillSwitch.activate t1 r1 ks)).file_exists = false ∧
    (KillSwitch.is_active_check t3 (KillSwitch.deactivate (KillSwitch.activate t1 r1 ks))).1
      = false ∧
    (KillSwitch.activate t2 r2 (KillSwitch.activate t1 r1 ks)).active = true ∧
    (KillSwitch.activate t2 r2 (KillSwitch.activate t1 r1 ks)).activated_at = some t2 := by
  refine ⟨rfl, rfl, ?_, rfl, rfl⟩
  simp [KillSwitch.is_active_check, KillSwitch.deactivate, KillSwitch.activate]

/-! ## Detector lemmas -/

/-- Each scanned market contributes at most two checks. -/
lemma checksFor_length_le (s : Settings) (ps pu pd : ℚ) (km : KalshiMarket) :
    (ArbitrageEngine.checksFor s ps pu pd km).length ≤ 2 := by
  unfold ArbitrageEngine.checksFor
  split_ifs <;> simp

/-- The selected neighborhood holds at most `2·4+1 = 9` markets. -/
lemma select_nearby_length_le (l : List KalshiMarket) (ks : ℚ) :
    (ArbitrageEngine.select_nearby_markets l ks 4).length ≤ 9 := by
  unfold ArbitrageEngine.select_nearby_markets
  split_ifs with h
  · simp
  · dsimp only
    have h1 : ((l.drop (ArbitrageEngine.closestIdx l ks - 4)).take
        (min l.length (ArbitrageEngine.closestIdx l ks + 4 + 1)
          - (ArbitrageEngine.closestIdx l ks - 4))).length
        ≤ min l.length (ArbitrageEngine.closestIdx l ks + 4 + 1)
          - (ArbitrageEngine.closestIdx l ks - 4) :=
      List.length_take_le ..
    have h2 := Nat.min_le_right l.length (ArbitrageEngine.closestIdx l ks + 4 + 1)
    omega

/-- C3: Strategy assignment: for a scanned Kalshi market at strike `K` and
reference strike `K*`, when `K* > K` the detector emits exactly one check,
with poly leg Down, kalshi leg Yes and costs `poly_down` and `yes_ask/100`;
when `K* < K` exactly one check with poly leg Up, kalshi leg No and costs
`poly_up` and `no_ask/100`; when `K* = K` it emits both checks. -/
theorem strategy_assignment (s : Settings) (ps pu pd : ℚ) (km : KalshiMarket) :
    (km.strike < ps →
      (ArbitrageEngine.checksFor s ps pu pd km).map
          (fun c => (c.poly_leg, c.kalshi_leg, c.poly_cost, c.kalshi_cost))
        = [(PolyLeg.Down, KalshiLeg.Yes, pd, (km.yes_ask : ℚ) / 100)]) ∧
    (ps < km.strike →
      (ArbitrageEngine.checksFor s ps pu pd km).map
          (fun c => (c.poly_leg, c.kalshi_leg, c.poly_cost, c.kalshi_cost))
        = [(PolyLeg.Up, KalshiLeg.No, pu, (km.no_ask : ℚ) / 100)]) ∧
    (ps = km.strike →
      (ArbitrageEngine.checksFor s ps pu pd km).map
          (fun c => (c.poly_leg, c.kalshi_leg, c.poly_cost, c.kalshi_cost))
        = [(PolyLeg.Down, KalshiLeg.Yes, pd, (km.yes_ask : ℚ) / 100),
           (PolyLeg.Up, KalshiLeg.No, pu, (km.no_ask : ℚ) / 100)]) := by
  refine ⟨?_, ?_, ?_⟩
  · intro h
    unfold ArbitrageEngine.checksFor
    rw [if_pos h]
    simp [ArbitrageEngine.build_check]
  · intro h
    unfold ArbitrageEngine.checksFor
    rw [if_neg (not_lt.mpr h.le), if_pos h]
    simp [ArbitrageEngine.build_check]
  · intro h
    subst h
    unfold ArbitrageEngine.checksFor
    rw [if_neg (lt_irrefl _), if_neg (lt_irrefl _)]
    simp [ArbitrageEngine.build_check]

/-- C3 witness: the three strike comparisons on concrete markets. -/
theorem strategy_assignment_witness :
    ((ArbitrageEngine.checksFor defaultSettings 96000 (2/5) (7/20) ⟨95500, 55, 45⟩).map
        (fun c => (c.poly_leg, c.kalshi_leg, c.poly_cost, c.kalshi_cost))
      = [(PolyLeg.Down, KalshiLeg.Yes, 7/20, (55 : ℚ) / 100)]) ∧
    ((ArbitrageEngine.checksFor defaultSettings 96000 (2/5) (7/20) ⟨97000, 30, 70⟩).map
        (fun c => (c.poly_leg, c.kalshi_leg, c.poly_cost, c.kalshi_cost))
      = [(PolyLeg.Up, KalshiLeg.No, 2/5, (70 : ℚ) / 100)]) ∧
    ((ArbitrageEngine.checksFor defaultSettings 96000 (2/5) (7/20) ⟨96000, 50, 50⟩).map
        (fun c => (c.poly_leg, c.kalshi_leg, c.poly_cost, c.kalshi_cost))
      = [(PolyLeg.Down, KalshiLeg.Yes, 7/20, (50 : ℚ) / 100),
         (PolyLeg.Up, KalshiLeg.No, 2/5, (50 : ℚ) / 100)]) := by
  refine ⟨?_, ?_, ?_⟩
  · have := (strategy_assignment defaultSettings 96000 (2/5) (7/20) ⟨95500, 55, 45⟩).1
      (by norm_num)
    simpa using this
  · have := (strategy_assignment defaultSettings 96000 (2/5) (7/20) ⟨97000, 30, 70⟩).2.1
      (by norm_num)
    simpa using this
  · have := (strategy_assignment defaultSettings 96000 (2/5) (7/20) ⟨96000, 50, 50⟩).2.2
      (by norm_num)
    simpa using this

/-- C9: Neighborhood bound: with a present reference strike, the detector
scans at most the 9 markets of the radius-4 window, so it returns at most
`2·9 = 18` checks (and hence at most 18 opportunities). -/
theorem neighborhood_bound (s : Settings) (pd : PolymarketData) (kd : KalshiData)
    (ks : ℚ) (h : pd.price_to_beat = some ks) :
    (ArbitrageEngine.select_nearby_markets
        (ArbitrageEngine.sortByStrike kd.markets) ks 4).length ≤ 9 ∧
    (ArbitrageEngine.find_opportunities s pd kd).1.length ≤ 18 ∧
    (ArbitrageEngine.find_opportunities s pd kd).2.length ≤ 18 := by
  have hsel := select_nearby_length_le (ArbitrageEngine.sortByStrike kd.markets) ks
  have hall : (ArbitrageEngine.find_opportunities s pd kd).1.length ≤ 18 := by
    simp only [ArbitrageEngine.find_opportunities, h]
    rw [List.length_flatMap]
    have hle : ∀ x ∈ (ArbitrageEngine.select_nearby_markets
        (ArbitrageEngine.sortByStrike kd.markets) ks 4).map
          (List.length ∘ ArbitrageEngine.checksFor s ks
            (getPrice pd.prices "Up") (getPrice pd.prices "Down")), x ≤ 2 := by
      intro x hx
      obtain ⟨km, _, rfl⟩ := List.mem_map.mp hx
      exact checksFor_length_le _ _ _ _ _
    calc ((ArbitrageEngine.select_nearby_markets
            (ArbitrageEngine.sortByStrike kd.markets) ks 4).map
              (List.length ∘ ArbitrageEngine.checksFor s ks
                (getPrice pd.prices "Up") (getPrice pd.prices "Down"))).sum
        ≤ ((ArbitrageEngine.select_nearby_markets
            (ArbitrageEngine.sortByStrike kd.markets) ks 4).map
              (List.length ∘ ArbitrageEngine.checksFor s ks
                (getPrice pd.prices "Up") (getPrice pd.prices "Down"))).length • 2 :=
          List.sum_le_card_nsmul _ _ hle
      _ ≤ 18 := by
          rw [List.length_map, smul_eq_mul]
          omega
  refine ⟨hsel, hall, ?_⟩
  have hfilter : (ArbitrageEngine.find_opportunities s pd kd).2.length
      ≤ (ArbitrageEngine.find_opportunities s pd kd).1.length := by
    simp only [ArbitrageEngine.find_opportunities, h]
    exact List.length_filter_le _ _
  omega

/-- C9 witness: the bound evaluated on a concrete snapshot. -/
theorem neighborhood_bound_witness :
    (ArbitrageEngine.select_nearby_markets
        (ArbitrageEngine.sortByStrike [⟨95000, 50, 50⟩, ⟨96000, 60, 40⟩]) 96000 4).length
      ≤ 9 ∧
    (ArbitrageEngine.find_opportunities defaultSettings
        ⟨some 96000, [("Up", 1/2), ("Down", 1/2)]⟩
        ⟨[⟨95000, 50, 50⟩, ⟨96000, 60, 40⟩]⟩).1.length ≤ 18 ∧
    (ArbitrageEngine.find_opportunities defaultSettings
        ⟨some 96000, [("Up", 1/2), ("Down", 1/2)]⟩
        ⟨[⟨95000, 50, 50⟩, ⟨96000, 60, 40⟩]⟩).2.length ≤ 18 :=
  neighborhood_bound defaultSettings
    ⟨some 96000, [("Up", 1/2), ("Down", 1/2)]⟩
    ⟨[⟨95000, 50, 50⟩, ⟨96000, 60, 40⟩]⟩ 96000 rfl

/-! ## Circuit breaker lemmas -/

namespace CircuitBreaker

/-- Window cleaning never lengthens the deque. -/
lemma clean_old_calls_length_le (cfg : CBConfig) (now : ℚ) (calls : List (ℚ × Bool)) :
    (clean_old_calls cfg now calls).length ≤ calls.length :=
  (List.dropWhile_suffix _).sublist.length_le

/-- `record_failure` never leaves the `opened` state. -/
lemma record_failure_opened (cfg : CBConfig) (t : ℚ) (cb : CB)
    (h : cb.state = CircuitState.opened) :
    (record_failure cfg t cb).state = CircuitState.opened := by
  unfold record_failure
  dsimp only
  split_ifs with h1 h2 h3 <;> simp_all [trip, transition_to]

/-- A failure recorded while `closed`, below the consecutive threshold and
with fewer than five window samples, keeps the breaker `closed`, increments
the consecutive count, and grows the window by at most one sample. -/
lemma record_failure_closed_step (cfg : CBConfig) (t : ℚ) (cb : CB)
    (hst : cb.state = CircuitState.closed)
    (hc : cb.consecutive_failures + 1 < cfg.max_consecutive_failures)
    (hl : cb.api_calls.length + 1 < 5) :
    (record_failure cfg t cb).state = CircuitState.closed ∧
    (record_failure cfg t cb).consecutive_failures = cb.consecutive_failures + 1 ∧
    (record_failure cfg t cb).api_calls.length ≤ cb.api_calls.length + 1 := by
  have hlen : (clean_old_calls cfg t (cb.api_calls ++ [(t, false)])).length
      ≤ cb.api_calls.length + 1 := by
    have := clean_old_calls_length_le cfg t (cb.api_calls ++ [(t, false)])
    simpa using this
  unfold record_failure
  dsimp only
  rw [if_neg (by simp [hst]), if_neg (by omega), if_neg (by
    rintro ⟨-, h5⟩
    omega)]
  exact ⟨hst, rfl, hlen⟩

/-- A failure recorded while `closed` that reaches the consecutive threshold
trips the breaker to `opened`. -/
lemma record_failure_trips (cfg : CBConfig) (t : ℚ) (cb : CB)
    (hst : cb.state = CircuitState.closed)
    (hc : cfg.max_consecutive_failures ≤ cb.consecutive_failures + 1) :
    (record_failure cfg t cb).state = CircuitState.opened := by
  unfold record_failure
  dsimp only
  rw [if_neg (by simp [hst]), if_pos hc]
  rfl

/-- The `opened` state is absorbing under any run of failures. -/
lemma runFailures_opened (cfg : CBConfig) (ts : List ℚ) (cb : CB)
    (h : cb.state = CircuitState.opened) :
    (runFailures cfg ts cb).state = CircuitState.opened := by
  induction ts generalizing cb with
  | nil => exact h
  | cons t ts ih => exact ih _ (record_failure_opened cfg t cb h)

end CircuitBreaker

/-- C5 counterexample: with `max_consecutive_failures = 6` (all other
parameters at their defaults), five same-instant failures from a fresh
breaker already open the circuit through the error-rate trigger (rate 1.0 >
0.5 over ≥ 5 window samples), although `5 < 6`; so "Open iff
N ≥ max_consecutive_failures" fails for non-default thresholds. -/
theorem breaker_error_rate_cex :
    (CircuitBreaker.runFailures { defaultCBConfig with max_consecutive_failures := 6 }
        [0, 0, 0, 0, 0] (CircuitBreaker.init 0)).state = CircuitState.opened ∧
    ¬ (6 ≤ 5) := by
  have s1 : CircuitBreaker.record_failure
      { defaultCBConfig with max_consecutive_failures := 6 } 0 (CircuitBreaker.init 0)
      = ⟨CircuitState.closed, 1, 0, [(0, false)]⟩ := by
    norm_num [CircuitBreaker.record_failure, CircuitBreaker.clean_old_calls,
      CircuitBreaker.init, CircuitBreaker.error_rate, CircuitBreaker.trip,
      CircuitBreaker.transition_to, defaultCBConfig, List.dropWhile]
    decide
  have s2 : CircuitBreaker.record_failure
      { defaultCBConfig with max_consecutive_failures := 6 } 0
      ⟨CircuitState.closed, 1, 0, [(0, false)]⟩
      = ⟨CircuitState.closed, 2, 0, [(0, false), (0, false)]⟩ := by
    norm_num [CircuitBreaker.record_failure, CircuitBreaker.clean_old_calls,
      CircuitBreaker.error_rate, CircuitBreaker.trip,
      CircuitBreaker.transition_to, defaultCBConfig, List.dropWhile]
    decide
  have s3 : CircuitBreaker.record_failure
      { defaultCBConfig with max_consecutive_failures := 6 } 0
      ⟨CircuitState.closed, 2, 0, [(0, false), (0, false)]⟩
      = ⟨CircuitState.closed, 3, 0, [(0, false), (0, false), (0, false)]⟩ := by
    norm_num [CircuitBreaker.record_failure, CircuitBreaker.clean_old_calls,
      CircuitBreaker.error_rate, CircuitBreaker.trip,
      CircuitBreaker.transition_to, defaultCBConfig, List.dropWhile]
    decide
  have s4 : CircuitBreaker.record_failure
      { defaultCBConfig with max_consecutive_failures := 6 } 0
      ⟨CircuitState.closed, 3, 0, [(0, false), (0, false), (0, false)]⟩
      = ⟨CircuitState.closed, 4, 0, [(0, false), (0, false), (0, false), (0, false)]⟩ := by
    norm_num [CircuitBreaker.record_failure, CircuitBreaker.clean_old_calls,
      CircuitBreaker.error_rate, CircuitBreaker.trip,
      CircuitBreaker.transition_to, defaultCBConfig, List.dropWhile]
    decide
  have s5 : CircuitBreaker.record_failure
      { defaultCBConfig with max_consecutive_failures := 6 } 0
      ⟨CircuitState.closed, 4, 0, [(0, false), (0, false), (0, false), (0, false)]⟩
      = ⟨CircuitState.opened, 0, 0,
          [(0, false), (0, false), (0, false), (0, false), (0, false)]⟩ := by
    norm_num [CircuitBreaker.record_failure, CircuitBreaker.clean_old_calls,
      CircuitBreaker.error_rate, CircuitBreaker.trip,
      CircuitBreaker.transition_to, defaultCBConfig, List.dropWhile]
    intro h
    rw [if_neg (by simp)]
    norm_num
  refine ⟨?_, by decide⟩
  simp only [CircuitBreaker.runFailures, List.foldl_cons, List.foldl_nil,
    s1, s2, s3, s4, s5]

/-- C5 (amended): with the default configuration (`max_consecutive_failures
= 3`), starting from a fresh `closed` breaker, a sequence of N
`record_failure` calls (at arbitrary timestamps, no interleaved successes)
leaves the breaker `opened` iff `N ≥ 3`. For thresholds above 5 the
error-rate trigger can open the breaker at the fifth failure already. -/
theorem breaker_consecutive_failures (ts : List ℚ) (t0 : ℚ) :
    (CircuitBreaker.runFailures defaultCBConfig ts (CircuitBreaker.init t0)).state
      = CircuitState.opened ↔ 3 ≤ ts.length := by
  match ts with
  | [] => simp [CircuitBreaker.runFailures, CircuitBreaker.init]
  | [t1] =>
    have h1 := CircuitBreaker.record_failure_closed_step defaultCBConfig t1
      (CircuitBreaker.init t0) rfl (by simp [defaultCBConfig, CircuitBreaker.init])
      (by simp [CircuitBreaker.init])
    simp only [CircuitBreaker.runFailures, List.foldl_cons, List.foldl_nil]
    rw [show (3 ≤ ([t1] : List ℚ).length) = False by simp]
    simp [h1.1]
  | [t1, t2] =>
    have h1 := CircuitBreaker.record_failure_closed_step defaultCBConfig t1
      (CircuitBreaker.init t0) rfl (by simp [defaultCBConfig, CircuitBreaker.init])
      (by simp [CircuitBreaker.init])
    have h2 := CircuitBreaker.record_failure_closed_step defaultCBConfig t2
      (CircuitBreaker.record_failure defaultCBConfig t1 (CircuitBreaker.init t0)) h1.1
      (by simp only [h1.2.1]; simp [defaultCBConfig, CircuitBreaker.init])
      (by have h0 : (CircuitBreaker.init t0).api_calls.length = 0 := rfl
          have := h1.2.2; omega)
    simp only [CircuitBreaker.runFailures, List.foldl_cons, List.foldl_nil]
    rw [show (3 ≤ ([t1, t2] : List ℚ).length) = False by simp]
    simp [h2.1]
  | t1 :: t2 :: t3 :: rest =>
    have h1 := CircuitBreaker.record_failure_closed_step defaultCBConfig t1
      (CircuitBreaker.init t0) rfl (by simp [defaultCBConfig, CircuitBreaker.init])
      (by simp [CircuitBreaker.init])
    have h2 := CircuitBreaker.record_failure_closed_step defaultCBConfig t2
      (CircuitBreaker.record_failure defaultCBConfig t1 (CircuitBreaker.init t0)) h1.1
      (by simp only [h1.2.1]; simp [defaultCBConfig, CircuitBreaker.init])
      (by have h0 : (CircuitBreaker.init t0).api_calls.length = 0 := rfl
          have := h1.2.2; omega)
    have h3 := CircuitBreaker.record_failure_trips defaultCBConfig t3
      (CircuitBreaker.record_failure defaultCBConfig t2
        (CircuitBreaker.record_failure defaultCBConfig t1 (CircuitBreaker.init t0)))
      h2.1
      (by rw [h2.2.1, h1.2.1]; simp [defaultCBConfig, CircuitBreaker.init])
    have habs := CircuitBreaker.runFailures_opened defaultCBConfig rest _ h3
    simp only [CircuitBreaker.runFailures, List.foldl_cons] at habs ⊢
    rw [habs]
    simp

/-- C6: HalfOpen probe semantics: reading `state` while `opened` with at
least `cooldown_sec` elapsed since the last transition yields `halfOpen`
(and leaves the breaker in `halfOpen`); from `halfOpen`, one
`record_success` closes the breaker and one `record_failure` re-opens it,
regardless of the consecutive-failure count. -/
theorem breaker_half_open_probe (cfg : CBConfig) (now : ℚ) (cb : CB) :
    (cb.state = CircuitState.opened → cfg.cooldown_sec ≤ now - cb.last_state_change →
      (CircuitBreaker.readState cfg now cb).1 = CircuitState.halfOpen ∧
      (CircuitBreaker.readState cfg now cb).2.state = CircuitState.halfOpen) ∧
    (cb.state = CircuitState.halfOpen →
      (CircuitBreaker.record_success cfg now cb).state = CircuitState.closed) ∧
    (cb.state = CircuitState.halfOpen →
      (CircuitBreaker.record_failure cfg now cb).state = CircuitState.opened) := by
  refine ⟨?_, ?_, ?_⟩
  · intro hst helapsed
    unfold CircuitBreaker.readState
    rw [if_pos ⟨hst, helapsed⟩]
    exact ⟨rfl, rfl⟩
  · intro hst
    unfold CircuitBreaker.record_success
    dsimp only
    rw [if_pos (by simpa using hst)]
    rfl
  · intro hst
    unfold CircuitBreaker.record_failure
    dsimp only
    rw [if_pos (by simpa using hst)]
    rfl

/-- C6 witness: a breaker opened at time 0 read at time 300 (the default
cooldown) turns `halfOpen`; from a `halfOpen` breaker, one success closes
and one failure re-opens. -/
theorem breaker_half_open_probe_witness :
    ((CircuitBreaker.readState defaultCBConfig 300
        ⟨CircuitState.opened, 0, 0, []⟩).1 = CircuitState.halfOpen ∧
      (CircuitBreaker.readState defaultCBConfig 300
        ⟨CircuitState.opened, 0, 0, []⟩).2.state = CircuitState.halfOpen) ∧
    (CircuitBreaker.record_success defaultCBConfig 301
        ⟨CircuitState.halfOpen, 0, 300, []⟩).state = CircuitState.closed ∧
    (CircuitBreaker.record_failure defaultCBConfig 301
        ⟨CircuitState.halfOpen, 0, 300, []⟩).state = CircuitState.opened :=
  ⟨(breaker_half_open_probe defaultCBConfig 300 ⟨CircuitState.opened, 0, 0, []⟩).1
      rfl (by norm_num [defaultCBConfig]),
   (breaker_half_open_probe defaultCBConfig 301 ⟨CircuitState.halfOpen, 0, 300, []⟩).2.1 rfl,
   (breaker_half_open_probe defaultCBConfig 301 ⟨CircuitState.halfOpen, 0, 300, []⟩).2.2 rfl⟩

/-- C7: Risk-gate ordering and result shape: the six gates are evaluated in
the fixed order halt, margin, single trade, exposure, daily loss, hourly
rate; the first failing gate yields `(false, reason-for-that-gate)` (so each
failure reason presupposes every earlier gate passed), and when every gate
passes the result is `(true, approved)`. -/
theorem risk_gate_ordering (s : RiskSettings) (st : RiskState)
    (now net_margin cost exposure : ℚ) :
    ((RiskManager.check_trade_allowed s st now net_margin cost exposure).1 = true
      ↔ (RiskManager.check_trade_allowed s st now net_margin cost exposure).2
          = RiskReason.approved) ∧
    (RiskManager.check_trade_allowed s st now net_margin cost exposure
        = (true, RiskReason.approved)
      ↔ (st.is_halted = false ∧ s.MIN_NET_MARGIN ≤ net_margin ∧
          cost ≤ s.MAX_SINGLE_TRADE_USD ∧
          exposure + cost ≤ s.MAX_TOTAL_EXPOSURE_USD ∧
          -s.MAX_DAILY_LOSS_USD < st.daily_pnl ∧
          (RiskManager.clean_old_timestamps now st.trade_timestamps).length
            < s.MAX_TRADES_PER_HOUR)) ∧
    (st.is_halted = true →
      RiskManager.check_trade_allowed s st now net_margin cost exposure
        = (false, RiskReason.halted st.halt_reason)) ∧
    (st.is_halted = false → net_margin < s.MIN_NET_MARGIN →
      RiskManager.check_trade_allowed s st now net_margin cost exposure
        = (false, RiskReason.margin_below_min net_margin s.MIN_NET_MARGIN)) ∧
    (st.is_halted = false → s.MIN_NET_MARGIN ≤ net_margin →
      s.MAX_SINGLE_TRADE_USD < cost →
      RiskManager.check_trade_allowed s st now net_margin cost exposure
        = (false, RiskReason.trade_too_large cost s.MAX_SINGLE_TRADE_USD)) ∧
    (st.is_halted = false → s.MIN_NET_MARGIN ≤ net_margin →
      cost ≤ s.MAX_SINGLE_TRADE_USD → s.MAX_TOTAL_EXPOSURE_USD < exposure + cost →
      RiskManager.check_trade_allowed s st now net_margin cost exposure
        = (false, RiskReason.exposure_exceeded exposure cost
            s.MAX_TOTAL_EXPOSURE_USD)) ∧
    (st.is_halted = false → s.MIN_NET_MARGIN ≤ net_margin →
      cost ≤ s.MAX_SINGLE_TRADE_USD → exposure + cost ≤ s.MAX_TOTAL_EXPOSURE_USD →
      st.daily_pnl ≤ -s.MAX_DAILY_LOSS_USD →
      RiskManager.check_trade_allowed s st now net_margin cost exposure
        = (false, RiskReason.daily_loss_exceeded st.daily_pnl
            s.MAX_DAILY_LOSS_USD)) ∧
    (st.is_halted = false → s.MIN_NET_MARGIN ≤ net_margin →
      cost ≤ s.MAX_SINGLE_TRADE_USD → exposure + cost ≤ s.MAX_TOTAL_EXPOSURE_USD →
      -s.MAX_DAILY_LOSS_USD < st.daily_pnl →
      s.MAX_TRADES_PER_HOUR
        ≤ (RiskManager.clean_old_timestamps now st.trade_timestamps).length →
      RiskManager.check_trade_allowed s st now net_margin cost exposure
        = (false, RiskReason.rate_limited
            (RiskManager.clean_old_timestamps now st.trade_timestamps).length
            s.MAX_TRADES_PER_HOUR)) := by
  unfold RiskManager.check_trade_allowed
  split_ifs with h1 h2 h3 h4 h5 h6 <;> simp_all

/-- C7 witness: an all-gates-pass scenario yields `(true, approved)`; a
halted scenario fails at the first gate with the halt reason. -/
theorem risk_gate_ordering_witness :
    RiskManager.check_trade_allowed
        ⟨2/100, 50, 500, 100, 20⟩ ⟨false, "", 0, []⟩ 0 (3/100) 10 0
      = (true, RiskReason.approved) ∧
    RiskManager.check_trade_allowed
        ⟨2/100, 50, 500, 100, 20⟩ ⟨true, "kill switch", 0, []⟩ 0 (3/100) 10 0
      = (false, RiskReason.halted "kill switch") :=
  ⟨(risk_gate_ordering ⟨2/100, 50, 500, 100, 20⟩ ⟨false, "", 0, []⟩ 0 (3/100) 10 0).2.1.mpr
      ⟨rfl, by norm_num, by norm_num, by norm_num, by norm_num,
       by norm_num [RiskManager.clean_old_timestamps, List.dropWhile]⟩,
   (risk_gate_ordering ⟨2/100, 50, 500, 100, 20⟩ ⟨true, "kill switch", 0, []⟩ 0
      (3/100) 10 0).2.2.1 rfl⟩

/-! ## Order book lemmas -/

namespace PolymarketClient

/-- With strictly positive prices on the walked levels, the accumulated cost
never exceeds the budget: each fill spends at most the remaining budget. -/
lemma fillableGo_cost_le (side : Side) (mp bu : ℚ) (ls : List OrderBookLevel)
    (tc c : ℚ) (hc : c ≤ bu) (hpos : ∀ lv ∈ ls, 0 < lv.price) :
    (fillableGo side mp bu ls tc c).2 ≤ bu := by
  induction ls generalizing tc c with
  | nil => exact hc
  | cons l ls ih =>
    unfold fillableGo
    dsimp only
    split_ifs with h1 h2 h3
    · exact hc
    · exact hc
    · exact hc
    · have hp : 0 < l.price := hpos l (List.mem_cons_self l ls)
      have h4 : min l.size ((bu - c) / l.price) * l.price
          ≤ (bu - c) / l.price * l.price :=
        mul_le_mul_of_nonneg_right (min_le_right _ _) hp.le
      rw [div_mul_cancel₀ _ (ne_of_gt hp)] at h4
      exact ih _ _ (by linarith) (fun lv hlv => hpos lv (List.mem_cons_of_mem l hlv))

/-- The BUY walk only ever consumes the longest prefix of levels priced at
or below the limit: it stops at the first level above it. -/
lemma fillableGo_buy_takeWhile (mp bu : ℚ) (ls : List OrderBookLevel) (tc c : ℚ) :
    fillableGo Side.BUY mp bu ls tc c
      = fillableGo Side.BUY mp bu
          (ls.takeWhile (fun l => decide (l.price ≤ mp))) tc c := by
  induction ls generalizing tc c with
  | nil => rfl
  | cons l ls ih =>
    rcases le_or_lt l.price mp with h | h
    · rw [show (l :: ls).takeWhile (fun l => decide (l.price ≤ mp))
          = l :: ls.takeWhile (fun l => decide (l.price ≤ mp)) by
        simp [List.takeWhile_cons, h]]
      simp only [fillableGo]
      split_ifs <;> first
        | rfl
        | exact ih _ _
    · rw [show (l :: ls).takeWhile (fun l => decide (l.price ≤ mp)) = [] by
        simp [List.takeWhile_cons, not_le.mpr h]]
      simp only [fillableGo]
      rw [if_pos ⟨trivial, h⟩]

/-- The SELL walk only ever consumes the longest prefix of levels priced at
or above the limit: it stops at the first level below it. -/
lemma fillableGo_sell_takeWhile (mp bu : ℚ) (ls : List OrderBookLevel) (tc c : ℚ) :
    fillableGo Side.SELL mp bu ls tc c
      = fillableGo Side.SELL mp bu
          (ls.takeWhile (fun l => decide (mp ≤ l.price))) tc c := by
  induction ls generalizing tc c with
  | nil => rfl
  | cons l ls ih =>
    rcases le_or_lt mp l.price with h | h
    · rw [show (l :: ls).takeWhile (fun l => decide (mp ≤ l.price))
          = l :: ls.takeWhile (fun l => decide (mp ≤ l.price)) by
        simp [List.takeWhile_cons, h]]
      simp only [fillableGo]
      split_ifs <;> first
        | rfl
        | exact ih _ _
    · rw [show (l :: ls).takeWhile (fun l => decide (mp ≤ l.price)) = [] by
        simp [List.takeWhile_cons, not_le.mpr h]]
      simp only [fillableGo]
      rw [if_neg (by simp), if_pos ⟨trivial, h⟩]

end PolymarketClient

/-- C10: Budget safety of order-book depth walking: with strictly positive
prices on the walked side and a non-negative budget, `fillable_amount`
returns a total cost bounded by the budget; moreover the walk consumes only
the prefix of levels whose price satisfies the limit (at most the limit for
BUY, at least the limit for SELL), stopping at the first violating level.
The positivity hypothesis guards the unguarded per-level division
`remaining_budget / level.price`. -/
theorem fillable_amount_budget_safety (book : OrderBook) (side : Side)
    (mp bu : ℚ) (hbu : 0 ≤ bu)
    (hpos : ∀ lv ∈ PolymarketClient.walkedLevels book side, 0 < lv.price) :
    (PolymarketClient.fillable_amount book side mp bu).2 ≤ bu ∧
    (∀ b : OrderBook, PolymarketClient.fillable_amount b Side.BUY mp bu
      = PolymarketClient.fillableGo Side.BUY mp bu
          (b.asks.takeWhile (fun l => decide (l.price ≤ mp))) 0 0) ∧
    (∀ b : OrderBook, PolymarketClient.fillable_amount b Side.SELL mp bu
      = PolymarketClient.fillableGo Side.SELL mp bu
          (b.bids.takeWhile (fun l => decide (mp ≤ l.price))) 0 0) := by
  refine ⟨?_, ?_, ?_⟩
  · exact PolymarketClient.fillableGo_cost_le side mp bu _ 0 0 hbu hpos
  · intro b
    exact PolymarketClient.fillableGo_buy_takeWhile mp bu b.asks 0 0
  · intro b
    exact PolymarketClient.fillableGo_sell_takeWhile mp bu b.bids 0 0

/-- C10 witness: a concrete one-level book under a $3 budget. -/
theorem fillable_amount_budget_safety_witness :
    (PolymarketClient.fillable_amount
        ⟨[⟨45/100, 10⟩], [⟨55/100, 10⟩]⟩ Side.BUY (6/10) 3).2 ≤ 3 :=
  (fillable_amount_budget_safety ⟨[⟨45/100, 10⟩], [⟨55/100, 10⟩]⟩ Side.BUY (6/10) 3
    (by norm_num)
    (by intro lv hlv
        simp only [PolymarketClient.walkedLevels, List.mem_singleton] at hlv
        rw [hlv]
        norm_num)).1

end ArbBot
